/-
Verification of the Phoenix incident-orchestration engine against its
natural-language specification.

The Python sources are shallowly embedded:
  * `src/agents/orchestrator/agent.py` — incident data model, severity
    fallback classifier, agent-response handlers, persistence round-trip;
  * `src/agents/resolution/agent.py` — resolution planning, risk scoring,
    plan execution with safety limits and rollback;
  * `src/functions/resolution/function_app.py` — the Event Hub message
    loop that routes `resolution_request` / `approval_response` events.

Conventions of the embedding:
  * numeric metric values and confidences are rationals (`ℚ`);
  * `datetime.utcnow()` is modelled as a logical clock (`Nat`,
    microseconds since epoch); each call consumes one tick where the
    code makes several calls in sequence;
  * `isoformat`/`fromisoformat` are modelled as an injective decimal
    rendering of the clock value and its parser — the round-trip
    behaviour of the Python pair on the values the program produces;
  * simulated infrastructure calls (the `asyncio.sleep` stand-ins inside
    each capability handler) are recorded as explicit `Effect` values, so
    "the handler body is never reached" is "no effect is emitted";
  * event dispatch (`send_batch`) is recorded as emitted event values;
  * Python dict payloads are projected onto structures holding exactly
    the keys the embedded code reads.
-/
import Mathlib

namespace Phoenix

/-! ## Incident data model (src/agents/orchestrator/agent.py) -/

/-- `class IncidentSeverity(Enum)` — LOW/MEDIUM/HIGH/CRITICAL. -/
inductive IncidentSeverity where
  | low | medium | high | critical
deriving DecidableEq, Repr

/-- The `.value` of each `IncidentSeverity` member (lowercase string). -/
def IncidentSeverity.value : IncidentSeverity → String
  | .low => "low"
  | .medium => "medium"
  | .high => "high"
  | .critical => "critical"

/-- `IncidentSeverity(s)` — enum lookup by value, `none` when no member
matches (Python raises `ValueError`). -/
def IncidentSeverity.ofValue : String → Option IncidentSeverity
  | "low" => some .low
  | "medium" => some .medium
  | "high" => some .high
  | "critical" => some .critical
  | _ => none

/-- `class IncidentStatus(Enum)` — DETECTED/ANALYZING/RESOLVING/RESOLVED/ESCALATED. -/
inductive IncidentStatus where
  | detected | analyzing | resolving | resolved | escalated
deriving DecidableEq, Repr

/-- The `.value` of each `IncidentStatus` member (lowercase string). -/
def IncidentStatus.value : IncidentStatus → String
  | .detected => "detected"
  | .analyzing => "analyzing"
  | .resolving => "resolving"
  | .resolved => "resolved"
  | .escalated => "escalated"

/-- `IncidentStatus(s)` — enum lookup by value. -/
def IncidentStatus.ofValue : String → Option IncidentStatus
  | "detected" => some .detected
  | "analyzing" => some .analyzing
  | "resolving" => some .resolving
  | "resolved" => some .resolved
  | "escalated" => some .escalated
  | _ => none

/-- A metrics mapping (`Dict[str, Any]` restricted to the numeric values
the embedded code reads), as an association list. -/
def Metrics := List (String × ℚ)
deriving DecidableEq

/-- `metrics.get(key, 0)` — dictionary lookup with default `0`. -/
def Metrics.get (m : Metrics) (key : String) : ℚ :=
  (List.lookup key m).getD 0

/-! ## Fallback severity classifier
(`PhoenixOrchestrator._fallback_severity_classification`) -/

/-- The alert payload fields read by the classifier:
`alert_data.get("metrics", {})`. -/
structure AlertData where
  title : String
  description : String
  metrics : Metrics
deriving DecidableEq

/-- `_fallback_severity_classification(alert_data)` — the deterministic
rule ladder used when AI classification fails. (The source also reads
`avg_response_time` into a local that no rule ever uses; the dead read is
omitted.) -/
def fallbackSeverityClassification (alert_data : AlertData) : IncidentSeverity :=
  let metrics := alert_data.metrics
  let cpu_usage := metrics.get "cpu_percentage"
  let memory_usage := metrics.get "memory_percentage"
  let error_rate := metrics.get "error_rate"
  if cpu_usage > 90 ∨ memory_usage > 95 ∨ error_rate > 50 then
    IncidentSeverity.critical
  else if cpu_usage > 80 ∨ memory_usage > 85 ∨ error_rate > 20 then
    IncidentSeverity.high
  else if cpu_usage > 70 ∨ memory_usage > 75 ∨ error_rate > 10 then
    IncidentSeverity.medium
  else
    IncidentSeverity.low

/-- The rule ladder exactly as the specification words it (§4.2), stated
over the metrics mapping; used only to compare with the source's
`fallbackSeverityClassification`. -/
def specSeverityLadder (metrics : Metrics) : IncidentSeverity :=
  let cpu := metrics.get "cpu_percentage"
  let memory := metrics.get "memory_percentage"
  let error_rate := metrics.get "error_rate"
  if cpu > 90 ∨ memory > 95 ∨ error_rate > 50 then IncidentSeverity.critical
  else if cpu > 80 ∨ memory > 85 ∨ error_rate > 20 then IncidentSeverity.high
  else if cpu > 70 ∨ memory > 75 ∨ error_rate > 10 then IncidentSeverity.medium
  else IncidentSeverity.low

/-! ## Datetimes

`datetime.utcnow()` values are modelled as `Nat` ticks of a logical clock.
`isoformat` renders a tick as its decimal digit string (an injective
textual form standing in for ISO-8601 text) and `fromisoformat` parses it
back, failing (`none`, the model of Python raising) on non-digit input. -/

/-- Little-endian decimal digits of `n` (least significant digit first);
always nonempty. -/
def digitsLE (n : Nat) : List Nat :=
  if h : n < 10 then [n] else n % 10 :: digitsLE (n / 10)
termination_by n
decreasing_by exact Nat.div_lt_self (by omega) (by omega)

/-- Value of a little-endian digit list. -/
def valLE : List Nat → Nat
  | [] => 0
  | d :: t => d + 10 * valLE t

/-- `datetime.isoformat()` on a clock tick. -/
def isoformat (t : Nat) : String :=
  ((digitsLE t).reverse.map Nat.digitChar).asString

/-- `datetime.fromisoformat(s)` on the model's textual form; `none` models
the `ValueError` on malformed input. -/
def fromisoformat (s : String) : Option Nat :=
  let cs := s.toList
  if cs ≠ [] ∧ cs.all Char.isDigit then
    some (valLE ((cs.map fun c => c.toNat - 48).reverse))
  else
    none

/-! ## Incident record and persistence
(`Incident`, `_persist_incident`, `_get_incident_from_db`) -/

/-- One entry of `actions_taken` / `Incident.resolution_actions`: the
per-action result dict built by `PhoenixResolutionAgent._execute_plan`. -/
structure ActionResultRecord where
  action_id : String
  type : String
  description : String
  success : Bool
  message : String
  duration : Nat
deriving DecidableEq

/-- `@dataclass class Incident` (src/agents/orchestrator/agent.py). -/
structure Incident where
  id : String
  title : String
  description : String
  severity : IncidentSeverity
  status : IncidentStatus
  source : String
  metrics : Metrics
  created_at : Nat
  updated_at : Nat
  assigned_agents : List String
  resolution_actions : List ActionResultRecord
  estimated_resolution_time : Option Nat := none
  actual_resolution_time : Option Nat := none
deriving DecidableEq

/-- The Cosmos DB document upserted by `_persist_incident`:
`asdict(incident)` with `id`/`incidentId` set to the incident id and
datetimes/enums converted to strings. -/
structure PersistedRecord where
  id : String
  incidentId : String
  title : String
  description : String
  severity : String
  status : String
  source : String
  metrics : Metrics
  created_at : String
  updated_at : String
  assigned_agents : List String
  resolution_actions : List ActionResultRecord
  estimated_resolution_time : Option Nat
  actual_resolution_time : Option Nat
deriving DecidableEq

/-- `_persist_incident(incident)` — build the upserted document. -/
def persistIncident (incident : Incident) : PersistedRecord :=
  { id := incident.id
    incidentId := incident.id
    title := incident.title
    description := incident.description
    severity := incident.severity.value
    status := incident.status.value
    source := incident.source
    metrics := incident.metrics
    created_at := isoformat incident.created_at
    updated_at := isoformat incident.updated_at
    assigned_agents := incident.assigned_agents
    resolution_actions := incident.resolution_actions
    estimated_resolution_time := incident.estimated_resolution_time
    actual_resolution_time := incident.actual_resolution_time }

/-- `_get_incident_from_db` — rebuild an `Incident` from the persisted
document; `none` models the `except` branch (read/parse failure). -/
def getIncidentFromDb (item : PersistedRecord) : Option Incident := do
  let severity ← IncidentSeverity.ofValue item.severity
  let status ← IncidentStatus.ofValue item.status
  let created_at ← fromisoformat item.created_at
  let updated_at ← fromisoformat item.updated_at
  pure
    { id := item.id
      title := item.title
      description := item.description
      severity := severity
      status := status
      source := item.source
      metrics := item.metrics
      created_at := created_at
      updated_at := updated_at
      assigned_agents := item.assigned_agents
      resolution_actions := item.resolution_actions
      estimated_resolution_time := item.estimated_resolution_time
      actual_resolution_time := item.actual_resolution_time }

/-! ## Orchestrator agent-response handling
(`handle_agent_response`, `_handle_diagnostic_response`,
`_handle_resolution_response`, `_escalate_incident`) -/

/-- The `diagnosis` payload (`{"root_cause": str, "confidence": float}`)
carried opaquely by the orchestrator and read by the resolution planner. -/
structure Diagnosis where
  root_cause : String
  confidence : ℚ
deriving DecidableEq

/-- The fields of an agent-response dict read by `handle_agent_response`
and its per-agent handlers, with the `.get` defaults applied. -/
structure ResponseData where
  incident_id : String
  agent_type : String
  diagnosis : Diagnosis := ⟨"", 0⟩
  confidence : ℚ := 0
  success : Bool := false
  actions_taken : List ActionResultRecord := []
deriving DecidableEq

/-- Events the orchestrator dispatches via `send_batch`, with the payload
fields the core writes. -/
inductive OrchEvent where
  | resolution_request (incident_id : String) (diagnosis : Diagnosis)
      (incident_data : Incident)
  | communication (event_type : String) (incident_id : String)
      (incident_data : Incident)
  | incident_escalation (incident_id : String) (reason : String)
      (incident_data : Incident)
deriving DecidableEq

/-- `_escalate_incident(incident, reason)` — set ESCALATED, notify the
communication agent when assigned, persist. Returns the mutated incident,
the dispatched events and the upserted documents. -/
def escalateIncident (incident : Incident) (reason : String) (now : Nat) :
    Incident × List OrchEvent × List PersistedRecord :=
  let incident := { incident with status := IncidentStatus.escalated, updated_at := now }
  let events :=
    if "communication" ∈ incident.assigned_agents then
      [OrchEvent.incident_escalation incident.id reason incident]
    else []
  (incident, events, [persistIncident incident])

/-- `_handle_diagnostic_response(incident, response_data)`. -/
def handleDiagnosticResponse (incident : Incident) (response_data : ResponseData)
    (now : Nat) : Incident × List OrchEvent × List PersistedRecord :=
  let diagnosis := response_data.diagnosis
  let confidence := response_data.confidence
  if confidence ≥ 0.8 then
    if "resolution" ∈ incident.assigned_agents then
      (incident, [OrchEvent.resolution_request incident.id diagnosis incident], [])
    else if "communication" ∈ incident.assigned_agents then
      (incident, [OrchEvent.communication "diagnosis_complete" incident.id incident], [])
    else
      (incident, [], [])
  else
    escalateIncident incident ("Low diagnostic confidence: " ++ toString confidence) now

/-- `_handle_resolution_response(incident, response_data)`. The incident's
`actual_resolution_time` is `now − created_at` in clock units (the code's
`int((utcnow() - created_at).total_seconds())`). -/
def handleResolutionResponse (incident : Incident) (response_data : ResponseData)
    (now : Nat) : Incident × List OrchEvent × List PersistedRecord :=
  let incident := { incident with
    resolution_actions := incident.resolution_actions ++ response_data.actions_taken }
  if response_data.success then
    let incident := { incident with
      status := IncidentStatus.resolved
      actual_resolution_time := some (now - incident.created_at) }
    let events :=
      if "communication" ∈ incident.assigned_agents then
        [OrchEvent.communication "incident_resolved" incident.id incident]
      else []
    (incident, events, [persistIncident incident])
  else
    let (incident, events, persists) :=
      escalateIncident incident "Automatic resolution failed" now
    (incident, events, persists ++ [persistIncident incident])

/-- The orchestrator's in-memory `active_incidents` map. -/
def ActiveIncidents := List (String × Incident)
deriving DecidableEq

/-- `handle_agent_response(response_data)` — discard responses whose
incident id is unknown; otherwise dispatch on `agent_type` ("communication"
and unrecognised agent types only log, leaving the incident unchanged) and
store the possibly-mutated incident back in the map (Python mutates the
mapped object in place). -/
def handleAgentResponse (active : ActiveIncidents) (response_data : ResponseData)
    (now : Nat) : ActiveIncidents × List OrchEvent × List PersistedRecord :=
  match List.lookup response_data.incident_id active with
  | none => (active, [], [])
  | some incident =>
    let (incident, events, persists) :=
      if response_data.agent_type = "diagnostic" then
        handleDiagnosticResponse incident response_data now
      else if response_data.agent_type = "resolution" then
        handleResolutionResponse incident response_data now
      else
        (incident, [], [])
    (List.map (fun p => if p.1 = response_data.incident_id then (p.1, incident) else p)
       active,
     events, persists)

/-! ## Resolution agent: action model (src/agents/resolution/agent.py)

Handler `details` payloads are not modelled: the executor and the
orchestrator consume only a result's `success` and `message`. Action
parameter dicts are projected onto the keys the executor reads plus the
keys the planners write that the claims mention. -/

/-- `class ActionType(Enum)`. -/
inductive ActionType where
  | scale_out | scale_up | restart_service | clear_cache
  | optimize_database | update_config | rollback_deployment | circuit_breaker
deriving DecidableEq, BEq, Repr

/-- The `.value` of each `ActionType` member. -/
def ActionType.value : ActionType → String
  | .scale_out => "scale_out"
  | .scale_up => "scale_up"
  | .restart_service => "restart_service"
  | .clear_cache => "clear_cache"
  | .optimize_database => "optimize_database"
  | .update_config => "update_config"
  | .rollback_deployment => "rollback_deployment"
  | .circuit_breaker => "circuit_breaker"

/-- `class ActionStatus(Enum)`. -/
inductive ActionStatus where
  | pending | executing | completed | failed | rolled_back
deriving DecidableEq, Repr

/-- The action `parameters` bag (projection of the dict). -/
structure ActionParams where
  target_instances : Option ℤ := none
  new_sku : Option String := none
  service_name : Option String := none
  graceful_shutdown : Option Bool := none
  cache_type : Option String := none
  deployment_id : Option String := none
  target_version : Option String := none
  failure_threshold : Option ℤ := none
deriving DecidableEq

/-- A capability handler's return dict: `{"success": bool, "message": str}`. -/
structure ActionResult where
  success : Bool
  message : String
deriving DecidableEq

/-- Simulated infrastructure calls — the side effects of each capability
handler body (the logged cloud-API stand-in plus its `asyncio.sleep`).
"The handler body is reached" iff one of these is emitted. -/
inductive Effect where
  | scaleOutCall (target_instances : ℤ)
  | scaleUpCall (new_sku : String)
  | restartServiceCall (service_name : Option String) (graceful : Bool)
  | clearCacheCall (cache_type : String)
  | optimizeDatabaseCall
  | updateConfigCall
  | rollbackDeploymentCall (target_version : Option String)
  | circuitBreakerCall
deriving DecidableEq

/-- `@dataclass class ResolutionAction` — self-referential through the
optional owned `rollback_action`, hence an inductive type. -/
inductive ResolutionAction where
  | mk (id : String) (type : ActionType) (description : String)
      (parameters : ActionParams) (status : ActionStatus)
      (started_at : Option Nat) (completed_at : Option Nat)
      (result : Option ActionResult)
      (rollback_action : Option ResolutionAction)

namespace ResolutionAction

def id : ResolutionAction → String
  | mk i _ _ _ _ _ _ _ _ => i

def type : ResolutionAction → ActionType
  | mk _ t _ _ _ _ _ _ _ => t

def description : ResolutionAction → String
  | mk _ _ d _ _ _ _ _ _ => d

def parameters : ResolutionAction → ActionParams
  | mk _ _ _ p _ _ _ _ _ => p

def status : ResolutionAction → ActionStatus
  | mk _ _ _ _ s _ _ _ _ => s

def result : ResolutionAction → Option ActionResult
  | mk _ _ _ _ _ _ _ r _ => r

def rollback_action : ResolutionAction → Option ResolutionAction
  | mk _ _ _ _ _ _ _ _ rb => rb

def withStatus : ResolutionAction → ActionStatus → ResolutionAction
  | mk i t d p _ sa ca r rb, s => mk i t d p s sa ca r rb

def withStartedAt : ResolutionAction → Option Nat → ResolutionAction
  | mk i t d p s _ ca r rb, sa => mk i t d p s sa ca r rb

def withCompletedAt : ResolutionAction → Option Nat → ResolutionAction
  | mk i t d p s sa _ r rb, ca => mk i t d p s sa ca r rb

def withResult : ResolutionAction → Option ActionResult → ResolutionAction
  | mk i t d p s sa ca _ rb, r => mk i t d p s sa ca r rb

/-- Convenience constructor matching the planners' calls:
fresh action in PENDING with no timestamps, result, or rollback. -/
def pendingMk (i : String) (t : ActionType) (d : String) (p : ActionParams) :
    ResolutionAction :=
  mk i t d p ActionStatus.pending none none none none

end ResolutionAction

/-- `self.safety_limits` as set in `PhoenixResolutionAgent.__init__`. -/
structure SafetyLimits where
  max_scale_instances : ℤ := 20
  max_cpu_cores : ℤ := 32
  max_memory_gb : ℤ := 128
  cooldown_period : ℤ := 300
deriving DecidableEq

def safety_limits : SafetyLimits := {}

/-! ## Capability handlers (`_execute_scale_out` … `_execute_circuit_breaker`) -/

/-- `_execute_scale_out` — the only handler with a safety-limit gate:
it returns a failed result before the simulated call when the requested
instance count exceeds `max_scale_instances`. -/
def executeScaleOut (params : ActionParams) : ActionResult × List Effect :=
  let target_instances := params.target_instances.getD 3
  if target_instances > safety_limits.max_scale_instances then
    ({ success := false
       message := "Target instances (" ++ toString target_instances ++
         ") exceeds safety limit" }, [])
  else
    ({ success := true
       message := "Successfully scaled out to " ++ toString target_instances ++
         " instances" },
     [Effect.scaleOutCall target_instances])

/-- `_execute_scale_up` — no safety check; the simulated call is always
reached. -/
def executeScaleUp (params : ActionParams) : ActionResult × List Effect :=
  let new_sku := params.new_sku.getD "P2v3"
  ({ success := true, message := "Successfully scaled up to " ++ new_sku },
   [Effect.scaleUpCall new_sku])

/-- `_execute_restart_service`. -/
def executeRestartService (params : ActionParams) : ActionResult × List Effect :=
  let service_name := params.service_name
  let graceful := params.graceful_shutdown.getD true
  ({ success := true
     message := "Successfully restarted service " ++ service_name.getD "None" },
   [Effect.restartServiceCall service_name graceful])

/-- `_execute_clear_cache`. -/
def executeClearCache (params : ActionParams) : ActionResult × List Effect :=
  let cache_type := params.cache_type.getD "application_cache"
  ({ success := true, message := "Successfully cleared " ++ cache_type },
   [Effect.clearCacheCall cache_type])

/-- `_execute_optimize_database`. -/
def executeOptimizeDatabase (_ : ActionParams) : ActionResult × List Effect :=
  ({ success := true, message := "Database configuration optimized" },
   [Effect.optimizeDatabaseCall])

/-- `_execute_update_config`. -/
def executeUpdateConfig (_ : ActionParams) : ActionResult × List Effect :=
  ({ success := true, message := "Configuration updated successfully" },
   [Effect.updateConfigCall])

/-- `_execute_rollback_deployment`. -/
def executeRollbackDeployment (params : ActionParams) : ActionResult × List Effect :=
  let target_version := params.target_version
  ({ success := true
     message := "Successfully rolled back to version " ++ target_version.getD "None" },
   [Effect.rollbackDeploymentCall target_version])

/-- `_execute_circuit_breaker`. -/
def executeCircuitBreaker (_ : ActionParams) : ActionResult × List Effect :=
  ({ success := true, message := "Circuit breaker enabled successfully" },
   [Effect.circuitBreakerCall])

/-- `_execute_action(action)` — dispatch one handler per `ActionType`
(the dispatcher catches handler exceptions, so it is total). -/
def executeAction (action : ResolutionAction) : ActionResult × List Effect :=
  match action.type with
  | ActionType.scale_out => executeScaleOut action.parameters
  | ActionType.scale_up => executeScaleUp action.parameters
  | ActionType.restart_service => executeRestartService action.parameters
  | ActionType.clear_cache => executeClearCache action.parameters
  | ActionType.optimize_database => executeOptimizeDatabase action.parameters
  | ActionType.update_config => executeUpdateConfig action.parameters
  | ActionType.rollback_deployment => executeRollbackDeployment action.parameters
  | ActionType.circuit_breaker => executeCircuitBreaker action.parameters

/-! ## Plan execution (`_execute_plan`, `_execute_rollback`) -/

/-- `_execute_rollback(action)` — run the attached rollback action through
the same handler dispatch; mark the original action ROLLED_BACK only when
the rollback handler reports success (otherwise the status is left as it
was). Returns the possibly-updated action and the rollback's effects. -/
def executeRollback (action : ResolutionAction) : ResolutionAction × List Effect :=
  match action.rollback_action with
  | none => (action, [])
  | some rb =>
    let (rollback_result, effects) := executeAction rb
    if rollback_result.success then
      (action.withStatus ActionStatus.rolled_back, effects)
    else
      (action, effects)

/-- Outcome of one iteration of the `_execute_plan` loop. -/
structure StepOutcome where
  action : ResolutionAction
  record : ActionResultRecord
  effects : List Effect
  clock : Nat

/-- The body of the `_execute_plan` loop for one action: mark EXECUTING,
run the handler, mark COMPLETED/FAILED, append the result record, and —
when the handler failed, rollback is enabled and a rollback action is
attached — run the rollback. (`_execute_action` catches every handler
exception, so the loop's `except` arm is unreachable and not modelled;
the `self.executed_actions` audit registry is a write-only side store the
claims never read and is likewise not modelled.) -/
def processAction (rollback_enabled : Bool) (action : ResolutionAction)
    (clock : Nat) : StepOutcome :=
  let action := (action.withStatus ActionStatus.executing).withStartedAt (some clock)
  let (result, effects) := executeAction action
  let completed := clock + 1
  let action := ((action.withStatus
      (if result.success then ActionStatus.completed else ActionStatus.failed)).withCompletedAt
      (some completed)).withResult (some result)
  let record : ActionResultRecord :=
    { action_id := action.id
      type := action.type.value
      description := action.description
      success := result.success
      message := result.message
      duration := completed - clock }
  if ¬ result.success ∧ rollback_enabled ∧ action.rollback_action.isSome then
    let (action, rbEffects) := executeRollback action
    ⟨action, record, effects ++ rbEffects, completed⟩
  else
    ⟨action, record, effects, completed⟩

/-- `_execute_plan(resolution_plan)` over the plan's action list: every
action is processed in order; returns the mutated actions, the result
records (one per action), the emitted effects, and the advanced clock. -/
def executePlan (rollback_enabled : Bool) :
    List ResolutionAction → Nat →
    List ResolutionAction × List ActionResultRecord × List Effect × Nat
  | [], clock => ([], [], [], clock)
  | action :: rest, clock =>
    let step := processAction rollback_enabled action clock
    let (actions, records, effects, clock') :=
      executePlan rollback_enabled rest step.clock
    (step.action :: actions, step.record :: records, step.effects ++ effects, clock')

/-! ## Resolution planning (`_create_resolution_plan` and per-category
planners) -/

/-- `@dataclass class ResolutionPlan`. -/
structure ResolutionPlan where
  incident_id : String
  actions : List ResolutionAction
  estimated_duration : Nat
  risk_level : String
  requires_approval : Bool
  created_at : Nat

/-- The fields of the `incident_data` payload the planner reads. -/
structure IncidentData where
  id : String
  severity : String
  metrics : Metrics
deriving DecidableEq

/-- The agent's `self.config` string entries read by the planners. -/
def AgentConfig := List (String × String)

/-- `config.get(key)`. -/
def AgentConfig.get (cfg : AgentConfig) (key : String) : Option String :=
  List.lookup key cfg

/-- Python's `str.lower()`, modelled as per-character lowering. -/
def strToLower (s : String) : String :=
  String.mk (s.toList.map Char.toLower)

/-- Python's `needle in haystack` substring test. -/
def pyContains (haystack needle : String) : Bool :=
  decide (needle.toList <:+: haystack.toList)

/-- `uuid.uuid4()` determinized: the planners' fresh action ids, numbered
within each planner call. -/
def uid (n : Nat) : String := "uuid-" ++ Nat.repr n

/-- `_plan_cpu_resolution` — ScaleOut to 5, plus UpdateConfig when
`cpu_percentage > 90`. -/
def planCpuResolution (incident_data : IncidentData) : List ResolutionAction :=
  let a1 := ResolutionAction.pendingMk (uid 0) ActionType.scale_out
    "Scale out application instances to distribute CPU load"
    { target_instances := some 5 }
  let cpu_usage := incident_data.metrics.get "cpu_percentage"
  if cpu_usage > 90 then
    [a1, ResolutionAction.pendingMk (uid 1) ActionType.update_config
      "Optimize application configuration for CPU usage" {}]
  else
    [a1]

/-- `_plan_memory_resolution` — RestartService, plus ScaleUp when
`memory_percentage > 85`. -/
def planMemoryResolution (cfg : AgentConfig) (incident_data : IncidentData) :
    List ResolutionAction :=
  let a1 := ResolutionAction.pendingMk (uid 0) ActionType.restart_service
    "Restart service to clear memory leaks"
    { service_name := cfg.get "app_service_name", graceful_shutdown := some true }
  let memory_usage := incident_data.metrics.get "memory_percentage"
  if memory_usage > 85 then
    [a1, ResolutionAction.pendingMk (uid 1) ActionType.scale_up
      "Scale up instance size for more memory" { new_sku := some "P2v3" }]
  else
    [a1]

/-- `_plan_database_resolution` — OptimizeDatabase then ClearCache. -/
def planDatabaseResolution : List ResolutionAction :=
  [ResolutionAction.pendingMk (uid 0) ActionType.optimize_database
     "Optimize database connection settings" {},
   ResolutionAction.pendingMk (uid 1) ActionType.clear_cache
     "Clear database query cache" { cache_type := some "query_cache" }]

/-- `_plan_performance_resolution` — CircuitBreaker then ScaleOut to 3. -/
def planPerformanceResolution : List ResolutionAction :=
  [ResolutionAction.pendingMk (uid 0) ActionType.circuit_breaker
     "Enable circuit breaker for failing services" { failure_threshold := some 5 },
   ResolutionAction.pendingMk (uid 1) ActionType.scale_out
     "Scale out to improve response times" { target_instances := some 3 }]

/-- The record returned by `_check_recent_deployment` (its `timestamp`
field is never read downstream and is not modelled). -/
structure RecentDeployment where
  id : String
  previous_version : String
deriving DecidableEq

/-- `_check_recent_deployment` — the simulated lookup always reports the
placeholder deployment. -/
def checkRecentDeployment : Option RecentDeployment :=
  some { id := "deploy-123", previous_version := "v1.2.3" }

/-- `_plan_error_resolution` — RollbackDeployment when a recent deployment
is reported, else RestartService. -/
def planErrorResolution (cfg : AgentConfig) : List ResolutionAction :=
  match checkRecentDeployment with
  | some recent_deployment =>
    [ResolutionAction.pendingMk (uid 0) ActionType.rollback_deployment
       "Rollback to previous stable deployment"
       { deployment_id := some recent_deployment.id
         target_version := some recent_deployment.previous_version }]
  | none =>
    [ResolutionAction.pendingMk (uid 0) ActionType.restart_service
       "Restart service to resolve temporary errors"
       { service_name := cfg.get "app_service_name", graceful_shutdown := some true }]

/-- `_plan_generic_resolution` — ClearCache then a small ScaleOut. -/
def planGenericResolution : List ResolutionAction :=
  [ResolutionAction.pendingMk (uid 0) ActionType.clear_cache
     "Clear application cache" { cache_type := some "application_cache" },
   ResolutionAction.pendingMk (uid 1) ActionType.scale_out
     "Scale out instances as precautionary measure" { target_instances := some 2 }]

/-- `_estimate_action_duration` — the fixed per-type duration table. -/
def estimateActionDuration : ActionType → Nat
  | ActionType.scale_out => 120
  | ActionType.scale_up => 180
  | ActionType.restart_service => 60
  | ActionType.clear_cache => 30
  | ActionType.optimize_database => 45
  | ActionType.update_config => 30
  | ActionType.rollback_deployment => 300
  | ActionType.circuit_breaker => 15

/-- `_create_resolution_plan(incident_data, diagnosis)` — match the root
cause against the ordered category list, fall back to the generic plan
when no category matched, score risk and the approval requirement, and
sum the estimated duration. -/
def createResolutionPlan (cfg : AgentConfig) (incident_data : IncidentData)
    (diagnosis : Diagnosis) (now : Nat) : ResolutionPlan :=
  let root_cause := diagnosis.root_cause
  let confidence := diagnosis.confidence
  let rc := strToLower root_cause
  let actions :=
    if pyContains rc "high_cpu" || pyContains rc "cpu" then
      planCpuResolution incident_data
    else if pyContains rc "memory" then
      planMemoryResolution cfg incident_data
    else if pyContains rc "database" then
      planDatabaseResolution
    else if pyContains rc "timeout" || pyContains rc "response" then
      planPerformanceResolution
    else if pyContains rc "error" || pyContains rc "exception" then
      planErrorResolution cfg
    else
      []
  let actions := if actions.isEmpty then planGenericResolution else actions
  let riskApproval :=
    if confidence < 0.7 then
      ("high", true)
    else if actions.any fun action =>
        action.type == ActionType.rollback_deployment ||
        action.type == ActionType.restart_service then
      ("medium", incident_data.severity == "critical")
    else
      ("low", false)
  let estimated_duration :=
    (actions.map fun action => estimateActionDuration action.type).sum
  { incident_id := incident_data.id
    actions := actions
    estimated_duration := estimated_duration
    risk_level := riskApproval.1
    requires_approval := riskApproval.2
    created_at := now }

/-! ## `execute_resolution` and the Event Hub loop
(src/agents/resolution/agent.py, src/functions/resolution/function_app.py) -/

/-- The `"plan"` payload of an `approval_request` event
(`_request_approval`): per-action `(type.value, description, parameters)`
plus risk level and estimated duration. -/
structure PlanSummary where
  actions : List (String × String × ActionParams)
  risk_level : String
  estimated_duration : Nat
deriving DecidableEq

/-- Build the `approval_request` plan payload from a plan. -/
def planSummary (plan : ResolutionPlan) : PlanSummary :=
  { actions := plan.actions.map fun action =>
      (action.type.value, action.description, action.parameters)
    risk_level := plan.risk_level
    estimated_duration := plan.estimated_duration }

/-- Events the resolution agent dispatches via `send_batch`. -/
inductive ResOutEvent where
  | approval_request (incident_id : String) (plan : PlanSummary)
  | resolution_result (incident_id : String) (success : Bool)
      (actions_taken : List ActionResultRecord)
deriving DecidableEq

/-- The dict returned by `execute_resolution` (the approval branch returns
`success=False` with a message and the plan; the execution branch returns
the overall success, the per-action records and the summed duration). -/
structure ResolutionOutcome where
  success : Bool
  message : Option String
  actions_taken : List ActionResultRecord
  execution_time : Nat

/-- `execute_resolution(incident_data, diagnosis)` — create the plan; when
it requires approval, emit `approval_request` and return without touching
any action; otherwise run `_execute_plan`, compute the overall success as
the conjunction of the per-action successes, and emit `resolution_result`.
Returns the outcome, the dispatched events, the handler effects and the
advanced clock. -/
def executeResolution (cfg : AgentConfig) (rollback_enabled : Bool)
    (incident_data : IncidentData) (diagnosis : Diagnosis) (clock : Nat) :
    ResolutionOutcome × List ResOutEvent × List Effect × Nat :=
  let resolution_plan := createResolutionPlan cfg incident_data diagnosis clock
  if resolution_plan.requires_approval then
    ({ success := false
       message := some "Resolution requires human approval"
       actions_taken := []
       execution_time := 0 },
     [ResOutEvent.approval_request resolution_plan.incident_id
        (planSummary resolution_plan)],
     [], clock + 1)
  else
    let (_, execution_results, effects, clock') :=
      executePlan rollback_enabled resolution_plan.actions (clock + 1)
    let success := execution_results.all fun result => result.success
    ({ success := success
       message := none
       actions_taken := execution_results
       execution_time := (execution_results.map fun result => result.duration).sum },
     [ResOutEvent.resolution_result incident_data.id success execution_results],
     effects, clock')

/-- An incoming Event Hub message as decoded by
`process_event_hub_message`. -/
inductive HubEvent where
  | resolution_request (incident_data : IncidentData) (diagnosis : Diagnosis)
  | approval_response (response : String) (incident_id : String)
  | other (event_type : String)
deriving DecidableEq

/-- One iteration of the `process_event_hub_message` loop:
`resolution_request` runs `execute_resolution`; `approval_response` only
logs the decision (both APPROVE and DENY perform no executor call); any
other event type is ignored. -/
def processHubEvent (cfg : AgentConfig) (rollback_enabled : Bool)
    (event : HubEvent) (clock : Nat) : List ResOutEvent × List Effect × Nat :=
  match event with
  | HubEvent.resolution_request incident_data diagnosis =>
    let (_, events, effects, clock') :=
      executeResolution cfg rollback_enabled incident_data diagnosis clock
    (events, effects, clock')
  | HubEvent.approval_response _ _ => ([], [], clock)
  | HubEvent.other _ => ([], [], clock)

/-- `process_event_hub_message(events)` — process the batch in order. -/
def processEventHubMessage (cfg : AgentConfig) (rollback_enabled : Bool) :
    List HubEvent → Nat → List ResOutEvent × List Effect
  | [], _ => ([], [])
  | event :: rest, clock =>
    let (events, effects, clock') := processHubEvent cfg rollback_enabled event clock
    let (events', effects') := processEventHubMessage cfg rollback_enabled rest clock'
    (events ++ events', effects ++ effects')

/-! ## Concrete fixtures used by closed witness/counterexample theorems -/

/-- A rollback action within the safety limit: its ScaleOut handler
succeeds. -/
def rollbackDemoRollback : ResolutionAction :=
  ResolutionAction.pendingMk "rb-1" ActionType.scale_out
    "Scale back within the limit" { target_instances := some 2 }

/-- A rollback action above the safety limit: its ScaleOut handler
fails. -/
def rollbackDemoRollbackBad : ResolutionAction :=
  ResolutionAction.pendingMk "rb-2" ActionType.scale_out
    "Scale back above the limit" { target_instances := some 30 }

/-- A failing action (ScaleOut above the safety limit) with a succeeding
rollback action attached. -/
def rollbackDemoAction : ResolutionAction :=
  ResolutionAction.mk "out-1" ActionType.scale_out
    "Scale out beyond the limit" { target_instances := some 25 }
    ActionStatus.pending none none none (some rollbackDemoRollback)

/-- A failing action with a failing rollback action attached. -/
def rollbackDemoActionBad : ResolutionAction :=
  ResolutionAction.mk "out-2" ActionType.scale_out
    "Scale out beyond the limit" { target_instances := some 25 }
    ActionStatus.pending none none none (some rollbackDemoRollbackBad)

/-- An ANALYZING incident with all three agents assigned (the assignment a
CRITICAL severity produces). -/
def exampleIncidentAnalyzing : Incident :=
  { id := "inc-1"
    title := "High CPU usage detected"
    description := "CPU at 95%"
    severity := IncidentSeverity.critical
    status := IncidentStatus.analyzing
    source := "monitoring"
    metrics := [("cpu_percentage", 95)]
    created_at := 0
    updated_at := 1
    assigned_agents := ["diagnostic", "resolution", "communication"]
    resolution_actions := [] }

/-- A terminal (ESCALATED) incident still present in `active_incidents`. -/
def exampleIncidentEscalated : Incident :=
  { exampleIncidentAnalyzing with status := IncidentStatus.escalated }

/-- A sample per-action result record carried by a late resolution
response. -/
def exampleActionRecord : ActionResultRecord :=
  { action_id := "uuid-0"
    type := "scale_out"
    description := "Scale out application instances to distribute CPU load"
    success := true
    message := "Successfully scaled out to 5 instances"
    duration := 1 }

/-- A late resolution response reporting success for `inc-1`. -/
def lateResolutionResponse : ResponseData :=
  { incident_id := "inc-1"
    agent_type := "resolution"
    success := true
    actions_taken := [exampleActionRecord] }

/-! ## Supporting lemmas -/

theorem valLE_digitsLE (n : Nat) : valLE (digitsLE n) = n := by
  induction n using Nat.strong_induction_on with
  | _ n ih =>
    rw [digitsLE]
    split
    · simp [valLE]
    · rename_i h
      have hrec := ih (n / 10) (Nat.div_lt_self (by omega) (by omega))
      simp [valLE, hrec]
      omega

theorem digitsLE_lt (n : Nat) : ∀ d ∈ digitsLE n, d < 10 := by
  induction n using Nat.strong_induction_on with
  | _ n ih =>
    rw [digitsLE]
    split
    · rename_i h
      intro d hd
      simp only [List.mem_singleton] at hd
      omega
    · rename_i h
      intro d hd
      simp only [List.mem_cons] at hd
      rcases hd with hd | hd
      · omega
      · exact ih (n / 10) (Nat.div_lt_self (by omega) (by omega)) d hd

theorem digitsLE_ne_nil (n : Nat) : digitsLE n ≠ [] := by
  rw [digitsLE]
  split <;> simp

theorem digitChar_isDigit {d : Nat} (h : d < 10) :
    (Nat.digitChar d).isDigit = true := by
  interval_cases d <;> decide

theorem digitChar_toNat {d : Nat} (h : d < 10) :
    (Nat.digitChar d).toNat - 48 = d := by
  interval_cases d <;> decide

theorem map_digitChar_decode (l : List Nat) (h : ∀ d ∈ l, d < 10) :
    (l.map Nat.digitChar).map (fun c => c.toNat - 48) = l := by
  induction l with
  | nil => rfl
  | cons d t ih =>
    have hd : d < 10 := h d (by simp)
    have ht : ∀ x ∈ t, x < 10 := fun x hx => h x (by simp [hx])
    simp [digitChar_toNat hd, ih ht]

theorem fromisoformat_isoformat (t : Nat) : fromisoformat (isoformat t) = some t := by
  have hne : (digitsLE t).reverse.map Nat.digitChar ≠ [] := by
    simp [digitsLE_ne_nil t]
  have hdig : ((digitsLE t).reverse.map Nat.digitChar).all Char.isDigit = true := by
    simp only [List.all_eq_true, List.mem_map, List.mem_reverse]
    rintro c ⟨d, hd, rfl⟩
    exact digitChar_isDigit (digitsLE_lt t d hd)
  have hrev : ∀ d ∈ (digitsLE t).reverse, d < 10 := by
    intro d hd
    exact digitsLE_lt t d (List.mem_reverse.mp hd)
  unfold fromisoformat isoformat
  have hlist : (((digitsLE t).reverse.map Nat.digitChar).asString).toList
      = (digitsLE t).reverse.map Nat.digitChar := rfl
  simp only [hlist, hne, hdig, ne_eq, not_false_iff, and_self, if_pos,
    and_true, true_and]
  rw [map_digitChar_decode _ hrev, List.reverse_reverse, valLE_digitsLE]

theorem IncidentSeverity.severity_ofValue_value (s : IncidentSeverity) :
    IncidentSeverity.ofValue s.value = some s := by
  cases s <;> rfl

theorem IncidentStatus.status_ofValue_value (s : IncidentStatus) :
    IncidentStatus.ofValue s.value = some s := by
  cases s <;> rfl

@[simp] theorem ResolutionAction.id_withStatus (a : ResolutionAction) (s : ActionStatus) :
    (a.withStatus s).id = a.id := by cases a <;> rfl

@[simp] theorem ResolutionAction.id_withStartedAt (a : ResolutionAction) (x : Option Nat) :
    (a.withStartedAt x).id = a.id := by cases a <;> rfl

@[simp] theorem ResolutionAction.id_withCompletedAt (a : ResolutionAction) (x : Option Nat) :
    (a.withCompletedAt x).id = a.id := by cases a <;> rfl

@[simp] theorem ResolutionAction.id_withResult (a : ResolutionAction) (x : Option ActionResult) :
    (a.withResult x).id = a.id := by cases a <;> rfl

@[simp] theorem ResolutionAction.type_withStatus (a : ResolutionAction) (s : ActionStatus) :
    (a.withStatus s).type = a.type := by cases a <;> rfl

@[simp] theorem ResolutionAction.type_withStartedAt (a : ResolutionAction) (x : Option Nat) :
    (a.withStartedAt x).type = a.type := by cases a <;> rfl

@[simp] theorem ResolutionAction.type_withCompletedAt (a : ResolutionAction) (x : Option Nat) :
    (a.withCompletedAt x).type = a.type := by cases a <;> rfl

@[simp] theorem ResolutionAction.type_withResult (a : ResolutionAction) (x : Option ActionResult) :
    (a.withResult x).type = a.type := by cases a <;> rfl

@[simp] theorem ResolutionAction.description_withStatus (a : ResolutionAction) (s : ActionStatus) :
    (a.withStatus s).description = a.description := by cases a <;> rfl

@[simp] theorem ResolutionAction.description_withStartedAt (a : ResolutionAction) (x : Option Nat) :
    (a.withStartedAt x).description = a.description := by cases a <;> rfl

@[simp] theorem ResolutionAction.description_withCompletedAt (a : ResolutionAction) (x : Option Nat) :
    (a.withCompletedAt x).description = a.description := by cases a <;> rfl

@[simp] theorem ResolutionAction.description_withResult (a : ResolutionAction) (x : Option ActionResult) :
    (a.withResult x).description = a.description := by cases a <;> rfl

@[simp] theorem ResolutionAction.status_withStatus (a : ResolutionAction) (s : ActionStatus) :
    (a.withStatus s).status = s := by cases a <;> rfl

@[simp] theorem ResolutionAction.status_withStartedAt (a : ResolutionAction) (x : Option Nat) :
    (a.withStartedAt x).status = a.status := by cases a <;> rfl

@[simp] theorem ResolutionAction.status_withCompletedAt (a : ResolutionAction) (x : Option Nat) :
    (a.withCompletedAt x).status = a.status := by cases a <;> rfl

@[simp] theorem ResolutionAction.status_withResult (a : ResolutionAction) (x : Option ActionResult) :
    (a.withResult x).status = a.status := by cases a <;> rfl

@[simp] theorem ResolutionAction.rollback_withStatus (a : ResolutionAction) (s : ActionStatus) :
    (a.withStatus s).rollback_action = a.rollback_action := by cases a <;> rfl

@[simp] theorem ResolutionAction.rollback_withStartedAt (a : ResolutionAction) (x : Option Nat) :
    (a.withStartedAt x).rollback_action = a.rollback_action := by cases a <;> rfl

@[simp] theorem ResolutionAction.rollback_withCompletedAt (a : ResolutionAction) (x : Option Nat) :
    (a.withCompletedAt x).rollback_action = a.rollback_action := by cases a <;> rfl

@[simp] theorem ResolutionAction.rollback_withResult (a : ResolutionAction) (x : Option ActionResult) :
    (a.withResult x).rollback_action = a.rollback_action := by cases a <;> rfl

@[simp] theorem ResolutionAction.id_pendingMk (i : String) (t : ActionType)
    (d : String) (p : ActionParams) : (ResolutionAction.pendingMk i t d p).id = i := rfl

@[simp] theorem ResolutionAction.type_pendingMk (i : String) (t : ActionType)
    (d : String) (p : ActionParams) : (ResolutionAction.pendingMk i t d p).type = t := rfl

@[simp] theorem ResolutionAction.description_pendingMk (i : String) (t : ActionType)
    (d : String) (p : ActionParams) :
    (ResolutionAction.pendingMk i t d p).description = d := rfl

@[simp] theorem ResolutionAction.parameters_pendingMk (i : String) (t : ActionType)
    (d : String) (p : ActionParams) :
    (ResolutionAction.pendingMk i t d p).parameters = p := rfl

@[simp] theorem ResolutionAction.status_pendingMk (i : String) (t : ActionType)
    (d : String) (p : ActionParams) :
    (ResolutionAction.pendingMk i t d p).status = ActionStatus.pending := rfl

@[simp] theorem ResolutionAction.rollback_pendingMk (i : String) (t : ActionType)
    (d : String) (p : ActionParams) :
    (ResolutionAction.pendingMk i t d p).rollback_action = none := rfl

@[simp] theorem executeAction_withStatus (a : ResolutionAction) (s : ActionStatus) :
    executeAction (a.withStatus s) = executeAction a := by cases a <;> rfl

@[simp] theorem executeAction_withStartedAt (a : ResolutionAction) (x : Option Nat) :
    executeAction (a.withStartedAt x) = executeAction a := by cases a <;> rfl

@[simp] theorem executeAction_withCompletedAt (a : ResolutionAction) (x : Option Nat) :
    executeAction (a.withCompletedAt x) = executeAction a := by cases a <;> rfl

@[simp] theorem executeAction_withResult (a : ResolutionAction) (x : Option ActionResult) :
    executeAction (a.withResult x) = executeAction a := by cases a <;> rfl

/-- The per-action record appended by the `_execute_plan` loop body,
characterized in terms of the incoming action. -/
theorem processAction_record (rb : Bool) (a : ResolutionAction) (c : Nat) :
    (processAction rb a c).record =
      { action_id := a.id
        type := a.type.value
        description := a.description
        success := (executeAction a).1.success
        message := (executeAction a).1.message
        duration := 1 } := by
  simp only [processAction]
  split <;> split <;> simp

theorem executePlan_records_map (rb : Bool) (actions : List ResolutionAction) (clock : Nat) :
    ((executePlan rb actions clock).2.1).map (fun r => r.action_id) =
      actions.map ResolutionAction.id := by
  induction actions generalizing clock with
  | nil => rfl
  | cons a rest ih =>
    simp only [executePlan, List.map_cons, processAction_record]
    exact congrArg _ (ih _)

theorem executePlan_records_success (rb : Bool) (actions : List ResolutionAction) (clock : Nat) :
    ((executePlan rb actions clock).2.1).map (fun r => r.success) =
      actions.map (fun a => (executeAction a).1.success) := by
  induction actions generalizing clock with
  | nil => rfl
  | cons a rest ih =>
    simp only [executePlan, List.map_cons, processAction_record]
    exact congrArg _ (ih _)

/-- `execute_resolution` on a plan that requires approval: emit the
`approval_request` and return without executing anything. -/
theorem executeResolution_approval_eq (cfg : AgentConfig) (rb : Bool)
    (incident_data : IncidentData) (diagnosis : Diagnosis) (clock : Nat)
    (happr : (createResolutionPlan cfg incident_data diagnosis clock).requires_approval
      = true) :
    executeResolution cfg rb incident_data diagnosis clock =
      ({ success := false
         message := some "Resolution requires human approval"
         actions_taken := []
         execution_time := 0 },
       [ResOutEvent.approval_request incident_data.id
          (planSummary (createResolutionPlan cfg incident_data diagnosis clock))],
       [], clock + 1) := by
  simp only [executeResolution, happr, if_true]
  rfl

/-! ## Claim theorems -/

/-- C4: the fallback severity classifier is a pure total function of the
metrics mapping, equal to the spec's fixed rule ladder; identical metrics
yield identical severity; the four bands are mutually exclusive and
exhaustive; the comparisons are strict, so `cpu_percentage = 90` does not
trigger the CRITICAL cpu rule (it classifies HIGH) while 91 does. -/
theorem fallback_severity_ladder_spec :
    (∀ alert_data : AlertData,
      fallbackSeverityClassification alert_data = specSeverityLadder alert_data.metrics) ∧
    (∀ a b : AlertData, a.metrics = b.metrics →
      fallbackSeverityClassification a = fallbackSeverityClassification b) ∧
    (∀ a : AlertData,
      (fallbackSeverityClassification a = IncidentSeverity.critical ↔
        (a.metrics.get "cpu_percentage" > 90 ∨ a.metrics.get "memory_percentage" > 95 ∨
         a.metrics.get "error_rate" > 50)) ∧
      (fallbackSeverityClassification a = IncidentSeverity.high ↔
        (¬(a.metrics.get "cpu_percentage" > 90 ∨ a.metrics.get "memory_percentage" > 95 ∨
           a.metrics.get "error_rate" > 50) ∧
         (a.metrics.get "cpu_percentage" > 80 ∨ a.metrics.get "memory_percentage" > 85 ∨
          a.metrics.get "error_rate" > 20))) ∧
      (fallbackSeverityClassification a = IncidentSeverity.medium ↔
        (¬(a.metrics.get "cpu_percentage" > 90 ∨ a.metrics.get "memory_percentage" > 95 ∨
           a.metrics.get "error_rate" > 50) ∧
         ¬(a.metrics.get "cpu_percentage" > 80 ∨ a.metrics.get "memory_percentage" > 85 ∨
           a.metrics.get "error_rate" > 20) ∧
         (a.metrics.get "cpu_percentage" > 70 ∨ a.metrics.get "memory_percentage" > 75 ∨
          a.metrics.get "error_rate" > 10))) ∧
      (fallbackSeverityClassification a = IncidentSeverity.low ↔
        (¬(a.metrics.get "cpu_percentage" > 90 ∨ a.metrics.get "memory_percentage" > 95 ∨
           a.metrics.get "error_rate" > 50) ∧
         ¬(a.metrics.get "cpu_percentage" > 80 ∨ a.metrics.get "memory_percentage" > 85 ∨
           a.metrics.get "error_rate" > 20) ∧
         ¬(a.metrics.get "cpu_percentage" > 70 ∨ a.metrics.get "memory_percentage" > 75 ∨
           a.metrics.get "error_rate" > 10)))) ∧
    fallbackSeverityClassification ⟨"t", "d", [("cpu_percentage", 90)]⟩ =
      IncidentSeverity.high ∧
    fallbackSeverityClassification ⟨"t", "d", [("cpu_percentage", 91)]⟩ =
      IncidentSeverity.critical := by
  have hladder : ∀ alert_data : AlertData,
      fallbackSeverityClassification alert_data = specSeverityLadder alert_data.metrics :=
    fun _ => rfl
  refine ⟨hladder, fun a b h => by rw [hladder, hladder, h], ?_, by decide, by decide⟩
  intro a
  by_cases h1 : a.metrics.get "cpu_percentage" > 90 ∨
      a.metrics.get "memory_percentage" > 95 ∨ a.metrics.get "error_rate" > 50 <;>
    by_cases h2 : a.metrics.get "cpu_percentage" > 80 ∨
        a.metrics.get "memory_percentage" > 85 ∨ a.metrics.get "error_rate" > 20 <;>
      by_cases h3 : a.metrics.get "cpu_percentage" > 70 ∨
          a.metrics.get "memory_percentage" > 75 ∨ a.metrics.get "error_rate" > 10 <;>
        simp [fallbackSeverityClassification, h1, h2, h3]

/-- C10: a metric key absent from the metrics mapping is read as `0` by the
fallback classifier; when none of the three keys is present the classifier
returns LOW, so an absent key never satisfies any threshold band. -/
theorem absent_metrics_default_zero_low (alert_data : AlertData)
    (hc : List.lookup "cpu_percentage" alert_data.metrics = none)
    (hm : List.lookup "memory_percentage" alert_data.metrics = none)
    (he : List.lookup "error_rate" alert_data.metrics = none) :
    alert_data.metrics.get "cpu_percentage" = 0 ∧
    alert_data.metrics.get "memory_percentage" = 0 ∧
    alert_data.metrics.get "error_rate" = 0 ∧
    fallbackSeverityClassification alert_data = IncidentSeverity.low := by
  have hc0 : alert_data.metrics.get "cpu_percentage" = 0 := by simp [Metrics.get, hc]
  have hm0 : alert_data.metrics.get "memory_percentage" = 0 := by simp [Metrics.get, hm]
  have he0 : alert_data.metrics.get "error_rate" = 0 := by simp [Metrics.get, he]
  refine ⟨hc0, hm0, he0, ?_⟩
  norm_num [fallbackSeverityClassification, hc0, hm0, he0]

theorem absent_metrics_default_zero_low_witness :
    Metrics.get ([] : Metrics) "cpu_percentage" = 0 ∧
    Metrics.get ([] : Metrics) "memory_percentage" = 0 ∧
    Metrics.get ([] : Metrics) "error_rate" = 0 ∧
    fallbackSeverityClassification ⟨"Unknown Incident", "", []⟩ = IncidentSeverity.low :=
  absent_metrics_default_zero_low ⟨"Unknown Incident", "", []⟩ rfl rfl rfl

/-- C5: whenever the diagnosis confidence is below 0.7, the created
resolution plan has risk level "high" and requires approval, regardless of
the matched category, the incident's fields, or the actions planned. -/
theorem low_confidence_high_risk_approval (cfg : AgentConfig)
    (incident_data : IncidentData) (diagnosis : Diagnosis) (now : Nat)
    (h : diagnosis.confidence < 0.7) :
    (createResolutionPlan cfg incident_data diagnosis now).risk_level = "high" ∧
    (createResolutionPlan cfg incident_data diagnosis now).requires_approval = true := by
  simp [createResolutionPlan, h]

theorem low_confidence_high_risk_approval_witness :
    (createResolutionPlan [] ⟨"inc-1", "critical", []⟩ ⟨"unknown anomaly", 0.5⟩ 0).risk_level
        = "high" ∧
    (createResolutionPlan [] ⟨"inc-1", "critical", []⟩
        ⟨"unknown anomaly", 0.5⟩ 0).requires_approval = true :=
  low_confidence_high_risk_approval [] ⟨"inc-1", "critical", []⟩ ⟨"unknown anomaly", 0.5⟩ 0
    (by norm_num)

/-- C3 counterexample: a ScaleUp action requesting 25 instances — above the
20-instance safety maximum — is not rejected: its handler reports success
and the simulated capability call is reached (an effect is emitted), so
the claim fails for ScaleUp as stated. -/
theorem scale_up_exceeds_limit_succeeds_cex :
    (executeAction (ResolutionAction.pendingMk "up-1" ActionType.scale_up
        "Scale up instance size for more memory"
        { target_instances := some 25 })).1.success = true ∧
    (executeAction (ResolutionAction.pendingMk "up-1" ActionType.scale_up
        "Scale up instance size for more memory"
        { target_instances := some 25 })).2 = [Effect.scaleUpCall "P2v3"] :=
  ⟨rfl, rfl⟩

/-- C3 amended: only ScaleOut enforces the instance safety limit — a
ScaleOut request above the configured maximum (default 20) returns a
failed result naming the safety limit and emits no effect (the capability
body is never reached); ScaleUp performs no such check: its handler always
succeeds and its capability body is always reached. -/
theorem scale_safety_limit_only_scale_out (params : ActionParams)
    (h : params.target_instances.getD 3 > safety_limits.max_scale_instances) :
    executeScaleOut params =
      ({ success := false
         message := "Target instances (" ++ toString (params.target_instances.getD 3) ++
           ") exceeds safety limit" }, []) ∧
    (executeScaleUp params).1.success = true ∧
    (executeScaleUp params).2 = [Effect.scaleUpCall (params.new_sku.getD "P2v3")] := by
  refine ⟨?_, rfl, rfl⟩
  simp [executeScaleOut, h]

theorem scale_safety_limit_only_scale_out_witness :
    executeScaleOut { target_instances := some 25 } =
      ({ success := false, message := "Target instances (25) exceeds safety limit" }, []) ∧
    (executeScaleUp { target_instances := some 25 }).1.success = true ∧
    (executeScaleUp { target_instances := some 25 }).2 = [Effect.scaleUpCall "P2v3"] :=
  scale_safety_limit_only_scale_out { target_instances := some 25 } (by decide)

/-- C6: when the plan does not require approval, the executor processes
every plan action in plan order regardless of earlier failures — the
result list carries one record per plan action, in order — and the
overall success `execute_resolution` reports is the conjunction of the
per-action success flags computed after the full pass. -/
theorem plan_execution_full_pass (cfg : AgentConfig) (rollback_enabled : Bool)
    (incident_data : IncidentData) (diagnosis : Diagnosis) (clock : Nat)
    (happr : (createResolutionPlan cfg incident_data diagnosis clock).requires_approval
      = false) :
    (executeResolution cfg rollback_enabled incident_data diagnosis clock).1.actions_taken.map
        (fun r => r.action_id) =
      (createResolutionPlan cfg incident_data diagnosis clock).actions.map
        ResolutionAction.id ∧
    (executeResolution cfg rollback_enabled incident_data diagnosis
        clock).1.actions_taken.length =
      (createResolutionPlan cfg incident_data diagnosis clock).actions.length ∧
    (executeResolution cfg rollback_enabled incident_data diagnosis clock).1.success =
      (executeResolution cfg rollback_enabled incident_data diagnosis
        clock).1.actions_taken.all (fun r => r.success) ∧
    (∀ (actions : List ResolutionAction) (c : Nat),
      ((executePlan rollback_enabled actions c).2.1).map (fun r => r.action_id) =
        actions.map ResolutionAction.id ∧
      ((executePlan rollback_enabled actions c).2.1).map (fun r => r.success) =
        actions.map (fun a => (executeAction a).1.success)) := by
  have hmap := executePlan_records_map rollback_enabled
    (createResolutionPlan cfg incident_data diagnosis clock).actions (clock + 1)
  simp only [executeResolution, happr, Bool.false_eq_true, if_false]
  rcases hep : executePlan rollback_enabled
      (createResolutionPlan cfg incident_data diagnosis clock).actions (clock + 1) with
    ⟨acts, records, effs, clk⟩
  rw [hep] at hmap
  exact ⟨hmap, by simpa using congrArg List.length hmap, trivial,
    fun actions c => ⟨executePlan_records_map rollback_enabled actions c,
      executePlan_records_success rollback_enabled actions c⟩⟩

theorem plan_execution_full_pass_witness :
    (executeResolution [] true ⟨"inc-1", "critical", []⟩
        ⟨"high cpu usage", 0.9⟩ 0).1.actions_taken.map (fun r => r.action_id) =
      (createResolutionPlan [] ⟨"inc-1", "critical", []⟩
        ⟨"high cpu usage", 0.9⟩ 0).actions.map ResolutionAction.id ∧
    (executeResolution [] true ⟨"inc-1", "critical", []⟩
        ⟨"high cpu usage", 0.9⟩ 0).1.actions_taken.length =
      (createResolutionPlan [] ⟨"inc-1", "critical", []⟩
        ⟨"high cpu usage", 0.9⟩ 0).actions.length ∧
    (executeResolution [] true ⟨"inc-1", "critical", []⟩
        ⟨"high cpu usage", 0.9⟩ 0).1.success =
      (executeResolution [] true ⟨"inc-1", "critical", []⟩
        ⟨"high cpu usage", 0.9⟩ 0).1.actions_taken.all (fun r => r.success) ∧
    (∀ (actions : List ResolutionAction) (c : Nat),
      ((executePlan true actions c).2.1).map (fun r => r.action_id) =
        actions.map ResolutionAction.id ∧
      ((executePlan true actions c).2.1).map (fun r => r.success) =
        actions.map (fun a => (executeAction a).1.success)) :=
  plan_execution_full_pass [] true ⟨"inc-1", "critical", []⟩ ⟨"high cpu usage", 0.9⟩ 0
    (by
      norm_num [createResolutionPlan, planCpuResolution, Metrics.get,
        show strToLower "high cpu usage" = "high cpu usage" from rfl,
        show pyContains "high cpu usage" "high_cpu" = false from rfl,
        show pyContains "high cpu usage" "cpu" = true from rfl]
      decide)

/-- C7: when an action's handler fails while rollback is enabled and a
rollback action is attached, the action's final status after the
`_execute_plan` loop body is ROLLED_BACK iff running the attached rollback
action through the handler dispatch reports success; when the rollback
handler fails, the status stays FAILED. -/
theorem failed_action_rollback_iff (a r : ResolutionAction) (clock : Nat)
    (hf : (executeAction a).1.success = false)
    (hr : a.rollback_action = some r) :
    ((processAction true a clock).action.status = ActionStatus.rolled_back ↔
      (executeAction r).1.success = true) ∧
    ((executeAction r).1.success = false →
      (processAction true a clock).action.status = ActionStatus.failed) := by
  rcases hea : executeAction a with ⟨res, effs⟩
  have hf' : res.success = false := by simpa [hea] using hf
  rcases her : executeAction r with ⟨rres, reffs⟩
  by_cases hrs : rres.success = true
  · simp [processAction, executeRollback, hea, her, hf', hr, hrs]
  · simp only [Bool.not_eq_true] at hrs
    simp [processAction, executeRollback, hea, her, hf', hr, hrs]

theorem failed_action_rollback_iff_witness :
    (((processAction true rollbackDemoAction 0).action.status = ActionStatus.rolled_back ↔
        (executeAction rollbackDemoRollback).1.success = true) ∧
      ((executeAction rollbackDemoRollback).1.success = false →
        (processAction true rollbackDemoAction 0).action.status = ActionStatus.failed)) ∧
    (((processAction true rollbackDemoActionBad 0).action.status = ActionStatus.rolled_back ↔
        (executeAction rollbackDemoRollbackBad).1.success = true) ∧
      ((executeAction rollbackDemoRollbackBad).1.success = false →
        (processAction true rollbackDemoActionBad 0).action.status = ActionStatus.failed)) :=
  ⟨failed_action_rollback_iff rollbackDemoAction rollbackDemoRollback 0 rfl rfl,
   failed_action_rollback_iff rollbackDemoActionBad rollbackDemoRollbackBad 0 rfl rfl⟩

/-- C8: a plan that requires approval makes `execute_resolution` emit an
`approval_request` and return with no action executed (no handler effect,
empty `actions_taken`); an `approval_response` Event Hub message — APPROVE
or DENY — triggers no executor call; hence a batch whose resolution
requests all require approval produces no handler effect at all: no
action handler runs for such a plan before (indeed, ever after) an APPROVE
decision is recorded. -/
theorem approval_required_gates_executor (cfg : AgentConfig) (rollback_enabled : Bool)
    (incident_data : IncidentData) (diagnosis : Diagnosis) (clock : Nat)
    (happr : (createResolutionPlan cfg incident_data diagnosis clock).requires_approval
      = true) :
    executeResolution cfg rollback_enabled incident_data diagnosis clock =
      ({ success := false
         message := some "Resolution requires human approval"
         actions_taken := []
         execution_time := 0 },
       [ResOutEvent.approval_request incident_data.id
          (planSummary (createResolutionPlan cfg incident_data diagnosis clock))],
       [], clock + 1) ∧
    (∀ (response incident_id : String) (c : Nat),
      processHubEvent cfg rollback_enabled (HubEvent.approval_response response incident_id) c
        = ([], [], c)) ∧
    (∀ (events : List HubEvent) (c : Nat),
      (∀ (inc : IncidentData) (diag : Diagnosis),
        HubEvent.resolution_request inc diag ∈ events →
        ∀ t : Nat, (createResolutionPlan cfg inc diag t).requires_approval = true) →
      (processEventHubMessage cfg rollback_enabled events c).2 = []) := by
  refine ⟨executeResolution_approval_eq cfg rollback_enabled incident_data diagnosis clock happr,
    fun _ _ _ => rfl, ?_⟩
  intro events
  induction events with
  | nil => intro c h; rfl
  | cons e rest ih =>
    intro c h
    have hrest : ∀ (inc : IncidentData) (diag : Diagnosis),
        HubEvent.resolution_request inc diag ∈ rest →
        ∀ t : Nat, (createResolutionPlan cfg inc diag t).requires_approval = true :=
      fun i d hm t => h i d (by simp [hm]) t
    cases e with
    | resolution_request inc diag =>
      have h1 : (createResolutionPlan cfg inc diag c).requires_approval = true :=
        h inc diag (by simp) c
      simp [processEventHubMessage, processHubEvent,
        executeResolution_approval_eq cfg rollback_enabled inc diag c h1, ih _ hrest]
    | approval_response resp iid =>
      simp [processEventHubMessage, processHubEvent, ih _ hrest]
    | other et =>
      simp [processEventHubMessage, processHubEvent, ih _ hrest]

theorem approval_required_gates_executor_witness :
    executeResolution [] true ⟨"inc-1", "critical", []⟩ ⟨"unknown anomaly", 0.5⟩ 0 =
      ({ success := false
         message := some "Resolution requires human approval"
         actions_taken := []
         execution_time := 0 },
       [ResOutEvent.approval_request "inc-1"
          (planSummary (createResolutionPlan [] ⟨"inc-1", "critical", []⟩
            ⟨"unknown anomaly", 0.5⟩ 0))],
       [], 1) ∧
    (∀ (response incident_id : String) (c : Nat),
      processHubEvent [] true (HubEvent.approval_response response incident_id) c
        = ([], [], c)) ∧
    (∀ (events : List HubEvent) (c : Nat),
      (∀ (inc : IncidentData) (diag : Diagnosis),
        HubEvent.resolution_request inc diag ∈ events →
        ∀ t : Nat, (createResolutionPlan [] inc diag t).requires_approval = true) →
      (processEventHubMessage [] true events c).2 = []) :=
  approval_required_gates_executor [] true ⟨"inc-1", "critical", []⟩
    ⟨"unknown anomaly", 0.5⟩ 0
    (by
      norm_num [createResolutionPlan,
        show strToLower "unknown anomaly" = "unknown anomaly" from rfl,
        show pyContains "unknown anomaly" "high_cpu" = false from rfl,
        show pyContains "unknown anomaly" "cpu" = false from rfl,
        show pyContains "unknown anomaly" "memory" = false from rfl,
        show pyContains "unknown anomaly" "database" = false from rfl,
        show pyContains "unknown anomaly" "timeout" = false from rfl,
        show pyContains "unknown anomaly" "response" = false from rfl,
        show pyContains "unknown anomaly" "error" = false from rfl,
        show pyContains "unknown anomaly" "exception" = false from rfl])

/-- C9: persisting an incident and reloading the persisted record yields
an incident equal field for field to the original; in the persisted form
severity and status are stored as their lowercase enum string values and
the datetimes in the textual (ISO) form. -/
theorem incident_persist_reload_roundtrip (incident : Incident) :
    getIncidentFromDb (persistIncident incident) = some incident ∧
    (persistIncident incident).severity = incident.severity.value ∧
    (persistIncident incident).status = incident.status.value ∧
    (persistIncident incident).created_at = isoformat incident.created_at ∧
    (persistIncident incident).updated_at = isoformat incident.updated_at ∧
    (persistIncident incident).id = incident.id ∧
    (persistIncident incident).incidentId = incident.id := by
  refine ⟨?_, rfl, rfl, rfl, rfl, rfl, rfl⟩
  simp [getIncidentFromDb, persistIncident, IncidentSeverity.severity_ofValue_value,
    IncidentStatus.status_ofValue_value, fromisoformat_isoformat]

/-- C1 counterexample: handling a diagnostic response with confidence 0.9
for an ANALYZING incident that has `resolution` assigned dispatches the
`resolution_request`, but the incident's status stays ANALYZING — it does
not transition to RESOLVING as the claim states. -/
theorem diagnostic_no_resolving_transition_cex :
    (handleDiagnosticResponse exampleIncidentAnalyzing
        { incident_id := "inc-1", agent_type := "diagnostic"
          diagnosis := ⟨"high cpu usage", 0.9⟩, confidence := 0.9 } 7).1.status =
      IncidentStatus.analyzing ∧
    (handleDiagnosticResponse exampleIncidentAnalyzing
        { incident_id := "inc-1", agent_type := "diagnostic"
          diagnosis := ⟨"high cpu usage", 0.9⟩, confidence := 0.9 } 7).1.status ≠
      IncidentStatus.resolving ∧
    (handleDiagnosticResponse exampleIncidentAnalyzing
        { incident_id := "inc-1", agent_type := "diagnostic"
          diagnosis := ⟨"high cpu usage", 0.9⟩, confidence := 0.9 } 7).2.1 =
      [OrchEvent.resolution_request "inc-1" ⟨"high cpu usage", 0.9⟩
        exampleIncidentAnalyzing] := by
  have h9 : ((0.9 : ℚ) ≥ 0.8) := by norm_num
  simp [handleDiagnosticResponse, h9, exampleIncidentAnalyzing]

/-- C1 amended: for every incident with `resolution` assigned, handling a
diagnostic response with confidence ≥ 0.8 dispatches a
`resolution_request` carrying the diagnosis, but leaves the incident —
including its status — entirely unchanged and persists nothing; no
transition to RESOLVING occurs. -/
theorem diagnostic_response_dispatch (incident : Incident)
    (response_data : ResponseData) (now : Nat)
    (hconf : response_data.confidence ≥ 0.8)
    (hres : "resolution" ∈ incident.assigned_agents) :
    handleDiagnosticResponse incident response_data now =
      (incident,
       [OrchEvent.resolution_request incident.id response_data.diagnosis incident],
       []) := by
  simp [handleDiagnosticResponse, hconf, hres]

theorem diagnostic_response_dispatch_witness :
    handleDiagnosticResponse exampleIncidentAnalyzing
        { incident_id := "inc-1", agent_type := "diagnostic"
          diagnosis := ⟨"high cpu usage", 0.9⟩, confidence := 0.9 } 7 =
      (exampleIncidentAnalyzing,
       [OrchEvent.resolution_request "inc-1" ⟨"high cpu usage", 0.9⟩
         exampleIncidentAnalyzing],
       []) :=
  diagnostic_response_dispatch exampleIncidentAnalyzing
    { incident_id := "inc-1", agent_type := "diagnostic"
      diagnosis := ⟨"high cpu usage", 0.9⟩, confidence := 0.9 } 7
    (by norm_num) (by decide)

/-- C2 counterexample: a late resolution response (success = true) for an
incident that is already ESCALATED — and still tracked in
`active_incidents` — is not discarded: the incident is mutated, its
status moves to RESOLVED (between terminal states) and its
resolution_actions grow. -/
theorem terminal_response_mutates_cex :
    (handleAgentResponse [("inc-1", exampleIncidentEscalated)]
        lateResolutionResponse 9).1 ≠ [("inc-1", exampleIncidentEscalated)] ∧
    (List.lookup "inc-1" (handleAgentResponse [("inc-1", exampleIncidentEscalated)]
        lateResolutionResponse 9).1).map Incident.status =
      some IncidentStatus.resolved ∧
    (List.lookup "inc-1" (handleAgentResponse [("inc-1", exampleIncidentEscalated)]
        lateResolutionResponse 9).1).map Incident.resolution_actions =
      some [exampleActionRecord] := by
  refine ⟨by decide, by decide, by decide⟩

/-- C2 amended: `handle_agent_response` discards a response only when its
incident id is unknown to `active_incidents`; a late resolution response
for a tracked incident is processed regardless of terminal status: its
actions are appended and success=true sets the status to RESOLVED (even
from ESCALATED) while success=false sets it to ESCALATED. -/
theorem late_response_processing :
    (∀ (active : ActiveIncidents) (resp : ResponseData) (now : Nat),
      List.lookup resp.incident_id active = none →
      handleAgentResponse active resp now = (active, [], [])) ∧
    (∀ (incident : Incident) (resp : ResponseData) (now : Nat),
      (incident.status = IncidentStatus.resolved ∨
        incident.status = IncidentStatus.escalated) →
      ((resp.success = true →
          (handleResolutionResponse incident resp now).1.status =
            IncidentStatus.resolved) ∧
       (resp.success = false →
          (handleResolutionResponse incident resp now).1.status =
            IncidentStatus.escalated) ∧
       (handleResolutionResponse incident resp now).1.resolution_actions =
          incident.resolution_actions ++ resp.actions_taken)) := by
  constructor
  · intro active resp now h
    simp [handleAgentResponse, h]
  · intro incident resp now _
    refine ⟨?_, ?_, ?_⟩
    · intro hs
      simp [handleResolutionResponse, hs]
    · intro hs
      simp [handleResolutionResponse, hs, escalateIncident]
    · by_cases hs : resp.success = true
      · simp [handleResolutionResponse, hs]
      · simp only [Bool.not_eq_true] at hs
        simp [handleResolutionResponse, hs, escalateIncident]

end Phoenix
